import Mathlib

/-!
Verification of the libastr client library (src/libastr/client.py and
src/libastr/resources.py) against its natural-language specification.

The Python code is shallowly embedded: HTTP responses are explicit records,
the environment is a record of optional variables, network side effects are
returned as explicit traces, and every fallible operation returns `Except`.
-/

set_option maxHeartbeats 1000000

/-- Errors raised by libastr, mirroring src/libastr/exceptions.py plus the
generic `requests.HTTPError` (carrying status and body) and an OS-level
error for a failed `open`. -/
inductive PyError where
  | configurationError (msg : String)
  | authenticationFailure (status : Nat) (body : String)
  | resourceNotFound (status : Nat) (body : String)
  | archiveError
  | pathError (msg : String)
  | downloadError
  | httpError (status : Nat) (body : String)
  | osError (path : String)
  | unsupportedRequestType (t : String)
  deriving DecidableEq, Repr

/-- An HTTP response as seen by the client. The parsed JSON payload is kept
opaque as a string, since the claims about the dispatcher only concern the
status code and the raw body. -/
structure HttpResponse where
  status_code : Nat
  content : String
  jsonBody : String
  deriving DecidableEq, Repr

/-- `requests.Response.raise_for_status` raises `HTTPError` exactly when the
status code is a 4xx or 5xx code. -/
def raiseForStatusRaises (status : Nat) : Bool :=
  decide (400 ≤ status ∧ status < 600)

/-- `requests.Response.ok`: `True` iff `raise_for_status` does not raise. -/
def responseOk (status : Nat) : Bool :=
  ! raiseForStatusRaises status

/-- Python `==` between an `int` and a `str` is always `False` (cross-type
equality between `int` and `str` falls back to identity and never holds).
The source compares `response.status_code` (an `int`) with the string
literals "401" and "404"; this helper embeds that comparison. -/
def intEqStr (_n : Nat) (_s : String) : Bool := false

/-- Embedding of `AstrClient._request` (client.py lines 87-118): dispatches
GET/POST/DELETE, then on an HTTP error logs and re-raises, with a special
`AuthenticationFailure` branch guarded by `response.status_code == "401"`. -/
def AstrClient.request (request_type : String) (resp : HttpResponse) :
    Except PyError String :=
  if request_type = "GET" ∨ request_type = "DELETE" ∨ request_type = "POST" then
    if raiseForStatusRaises resp.status_code then
      if intEqStr resp.status_code "401" then
        .error (.authenticationFailure resp.status_code resp.content)
      else
        -- the second `response.raise_for_status()` raises the generic HTTPError
        .error (.httpError resp.status_code resp.content)
    else
      .ok resp.jsonBody
  else
    .error (.unsupportedRequestType request_type)

/-- Result of `AstrClient.download`: either the response body was written to
the local path, or an exception propagated. -/
inductive DownloadResult where
  | saved (content : String)
  | exn (e : PyError)
  deriving DecidableEq, Repr

/-- Embedding of `AstrClient.download` (client.py lines 165-199): an
unauthenticated GET, `raise_for_status` checking with string-compared
401/404 branches, then a `response.ok` re-check guarding `DownloadError`,
then the body is written to the file. -/
def AstrClient.download (resp : HttpResponse) : DownloadResult :=
  if raiseForStatusRaises resp.status_code then
    if intEqStr resp.status_code "401" then
      .exn (.authenticationFailure resp.status_code resp.content)
    else if intEqStr resp.status_code "404" then
      .exn (.resourceNotFound resp.status_code resp.content)
    else
      .exn (.httpError resp.status_code resp.content)
  else
    if ! responseOk resp.status_code then
      .exn .downloadError
    else
      .saved resp.content

/-- The environment variables read by the credential resolver
(LIBASTR_URL, LIBASTR_EMAIL, LIBASTR_TOKEN); `none` means unset. -/
structure Env where
  url : Option String
  email : Option String
  token : Option String
  deriving DecidableEq, Repr

/-- Embedding of `AstrClient._get_base_url_config` (client.py lines 56-68). -/
def AstrClient.get_base_url_config (env : Env) : Except PyError String :=
  match env.url with
  | some u => .ok u
  | none => .error (.configurationError
      "Cannot retrieve configuration, please set LIBASTR_URL env variable.")

/-- Embedding of `AstrClient._get_user_config` (client.py lines 70-83): both
LIBASTR_EMAIL and LIBASTR_TOKEN are read under one `try`, so a missing value
for either raises `ConfigurationError`. -/
def AstrClient.get_user_config (env : Env) : Except PyError (String × String) :=
  match env.email, env.token with
  | some e, some t => .ok (e, t)
  | _, _ => .error (.configurationError
      "Cannot retrieve configuration, please set LIBASTR_EMAIL and LIBASTR_TOKEN env variables.")

/-- Python `base_url.endswith("/")` for the one-character suffix "/": the
last character of the string is a slash. -/
def endsWithSlash (s : String) : Bool :=
  match s.data.getLast? with
  | some c => c = '/'
  | none => false

/-- The client state assigned by `AstrClient.__init__`: resolved email,
token and the request base url (the Authorization header is a pure function
of email and token and is not separately modelled). -/
structure AstrClientState where
  email : String
  token : String
  url : String
  deriving DecidableEq, Repr

/-- Embedding of `AstrClient.__init__` (client.py lines 21-52): base_url is
taken from the argument or else the environment; email and token are taken
from the arguments only when BOTH are given (`if email is None or token is
None` refetches the pair), else both come from the environment; base_url is
normalized to end with "/" and suffixed with "api/". -/
def AstrClient.init (base_url email token : Option String) (env : Env) :
    Except PyError AstrClientState :=
  match (match base_url with
         | none => AstrClient.get_base_url_config env
         | some u => .ok u) with
  | .error e => .error e
  | .ok burl =>
    match (match email, token with
           | some e, some t => Except.ok (e, t)
           | _, _ => AstrClient.get_user_config env) with
    | .error e => .error e
    | .ok (em, tok) =>
      let burl := if endsWithSlash burl then burl else burl ++ "/"
      .ok { email := em, token := tok, url := burl ++ "api/" }

deriving instance DecidableEq for Except

/-- Outcome of `AstrClient.upload`: the final result, the file handles that
were opened during the call, and the handles closed by the `finally` block. -/
structure ClientUploadExec where
  result : Except PyError String
  opened : List String
  closed : List String
  deriving DecidableEq, Repr

/-- The `for path in paths` loop of `AstrClient.upload`: opens each file in
order; returns the paths opened so far together with the first path whose
`open` raised, if any. `canOpen` tells which paths open successfully. -/
def openFiles (canOpen : String → Bool) :
    List String → List String → Option String × List String
  | [], acc => (none, acc)
  | p :: rest, acc =>
    if canOpen p then openFiles canOpen rest (acc ++ [p])
    else (some p, acc)

/-- Embedding of `AstrClient.upload` (client.py lines 201-241): opens all
files inside a `try`, posts the multipart request, maps HTTP errors exactly
as `_request` does, and the `finally` block closes every handle in `files`.
`postRaises` models a transport exception from `requests.post` itself. -/
def AstrClient.uploadExec (canOpen : String → Bool) (postRaises : Bool)
    (resp : HttpResponse) (paths : List String) : ClientUploadExec :=
  match openFiles canOpen paths [] with
  | (some p, opened) =>
    -- open raised; finally closes the handles opened so far
    { result := .error (.osError p), opened := opened, closed := opened }
  | (none, opened) =>
    if postRaises then
      { result := .error (.httpError 0 ""), opened := opened, closed := opened }
    else if raiseForStatusRaises resp.status_code then
      if intEqStr resp.status_code "401" then
        { result := .error (.authenticationFailure resp.status_code resp.content),
          opened := opened, closed := opened }
      else
        { result := .error (.httpError resp.status_code resp.content),
          opened := opened, closed := opened }
    else
      { result := .ok resp.content, opened := opened, closed := opened }

/-- The dict `self._astr_items` snapshotted by `Archive.__init__`
(resources.py lines 285-290). -/
structure AstrItems where
  id_ : Option String
  date : String
  category : String
  author : Option String
  comments : Option String
  descriptors : List (String × String)
  deriving DecidableEq, Repr

/-- The attributes of an `Archive` object (resources.py lines 277-290).
The `descriptors` dict is an association list in insertion order. -/
structure ArchiveState where
  id_ : Option String
  date : String
  category : String
  author : Option String
  comments : Option String
  descriptors : List (String × String)
  astr_items : AstrItems
  deriving DecidableEq, Repr

/-- Embedding of `Archive.__init__` (resources.py lines 244-290): stores each
argument in an attribute and snapshots them all into `_astr_items`. -/
def Archive.make (date category : String) (descriptors : List (String × String))
    (author : Option String) (comments : Option String) (id_ : Option String) :
    ArchiveState :=
  { id_ := id_, date := date, category := category, author := author,
    comments := comments, descriptors := descriptors,
    astr_items := { id_ := id_, date := date, category := category,
                    author := author, comments := comments,
                    descriptors := descriptors } }

/-- The dict produced by `Archive._object_to_dict`, with the descriptors
rendered as a list of name/value pairs. -/
structure ArchiveDict where
  id_ : Option String
  date : String
  category : String
  author : Option String
  comments : Option String
  descriptors : List (String × String)
  deriving DecidableEq, Repr

/-- The VALUE returned by `Archive._object_to_dict` (resources.py lines
300-312): `data = self._astr_items` supplies id_, date, category, author
and comments from the snapshot, then `data["descriptors"]` is rebuilt from
the CURRENT `self.descriptors` attribute. Note the source returns
`self._astr_items` ITSELF (an alias, not a copy); the in-place effect of
the call on the object is `Archive.object_to_dict_mutation` below, and a
caller mutating the returned dict mutates `self._astr_items`. -/
def Archive.object_to_dict (a : ArchiveState) : ArchiveDict :=
  { id_ := a.astr_items.id_, date := a.astr_items.date,
    category := a.astr_items.category, author := a.astr_items.author,
    comments := a.astr_items.comments,
    descriptors := a.descriptors.map (fun kv => (kv.1, kv.2)) }

/-- The in-place effect of `Archive._object_to_dict` on `self`: since
`data = self._astr_items` is a reference, `data["descriptors"] = ...`
writes the name/value list built from the current `descriptors` attribute
into the snapshot itself. -/
def Archive.object_to_dict_mutation (a : ArchiveState) : ArchiveState :=
  { a with astr_items := { a.astr_items with
      descriptors := a.descriptors.map (fun kv => (kv.1, kv.2)) } }

/-- Python dict assignment `d[k] = v`: updates the value in place when the
key is present (keeping its position), else appends the new pair. -/
def dictInsert (d : List (String × String)) (k v : String) :
    List (String × String) :=
  if d.any (fun kv => kv.1 = k) then
    d.map (fun kv => if kv.1 = k then (k, v) else kv)
  else d ++ [(k, v)]

/-- The JSON archive object returned by the ASTR API, as consumed by
`Browser._json_to_archive`: the `comments` field may be absent (`none`). -/
structure JsonArchive where
  _id : String
  author : String
  date : String
  category : String
  comments : Option String
  descriptors : List (String × String)
  deriving DecidableEq, Repr

/-- Embedding of `Browser._json_to_archive` (resources.py lines 43-70): folds
the descriptor array into a dict with `descriptors[name] = value`, then
constructs an `Archive`, passing `comments` only when the JSON has one
(the constructor default is `None`, which coincides with omitting it). -/
def Browser.json_to_archive (j : JsonArchive) : ArchiveState :=
  let descriptors := j.descriptors.foldl (fun d nv => dictInsert d nv.1 nv.2) []
  Archive.make j.date j.category descriptors (some j.author) j.comments (some j._id)

/-- Values occurring in a mongoDB query dict built by
`Browser.get_archives_by_args`: plain strings for author/date/category, and
for the "$and" key a list where each descriptor pair (k, v) stands for the
clause with descriptors element-matching name k and value v. -/
inductive QueryVal where
  | str (s : String)
  | elemMatches (l : List (String × String))
  deriving DecidableEq, Repr

/-- Embedding of `Browser.get_archives_by_args` (resources.py lines 120-154),
up to the query it passes to `get_archives_by_mongodb_query`: starts from an
empty dict and inserts "author", "date", "category" and "$and" only when the
corresponding argument was provided; each descriptor key/value pair yields
one element-match entry in the "$and" list, in dict iteration order. -/
def Browser.get_archives_by_args_query (author date category : Option String)
    (descriptors : Option (List (String × String))) :
    List (String × QueryVal) :=
  let query : List (String × QueryVal) := []
  let query := match author with
    | some a => query ++ [("author", QueryVal.str a)]
    | none => query
  let query := match date with
    | some d => query ++ [("date", QueryVal.str d)]
    | none => query
  let query := match category with
    | some c => query ++ [("category", QueryVal.str c)]
    | none => query
  match descriptors with
  | some ds =>
      query ++ [("$and", QueryVal.elemMatches (ds.map (fun kv => (kv.1, kv.2))))]
  | none => query

/-- Values occurring in the body of an archive update request: strings for
"date" and "comments", a name/value list for "descriptors". -/
inductive BodyVal where
  | str (s : String)
  | descriptorList (l : List (String × String))
  deriving DecidableEq, Repr

/-- A network call issued through the AstrClient dispatcher. -/
inductive NetOp where
  | get (uri : String)
  | post (uri : String) (body : List (String × BodyVal))
  | delete (uri : String)
  | fileUpload (uri : String) (paths : List String) (zip_name : String)
  deriving DecidableEq, Repr

/-- Embedding of `Archive.update` (resources.py lines 322-346): builds the
body request from the provided arguments only, posts it, and assigns no
attribute of `self`; returns the unchanged state and the issued call. -/
def Archive.update (a : ArchiveState) (date comments : Option String)
    (descriptors : Option (List (String × String))) : ArchiveState × NetOp :=
  let body : List (String × BodyVal) := []
  let body := match date with
    | some d => body ++ [("date", BodyVal.str d)]
    | none => body
  let body := match comments with
    | some c => body ++ [("comments", BodyVal.str c)]
    | none => body
  let body := match descriptors with
    | some ds => body ++ [("descriptors", BodyVal.descriptorList (ds.map (fun kv => (kv.1, kv.2))))]
    | none => body
  (a, NetOp.post ("archives/id/" ++ a.id_.getD "") body)

/-- `MAX_FILE_NUMBER` (resources.py line 19). -/
def MAX_FILE_NUMBER : Nat := 50

/-- Character scan underlying `basename`: keeps the characters accumulated
since the most recent "/". -/
def basenameAux : List Char → List Char → List Char
  | [], acc => acc
  | c :: rest, acc =>
    if c = '/' then basenameAux rest []
    else basenameAux rest (acc ++ [c])

/-- `os.path.basename` on a POSIX path: everything after the last "/"
(this is also exactly what client.py computes with `path.split("/")[-1]`). -/
def basename (p : String) : String :=
  String.mk (basenameAux p.data [])

/-- The `for path in file_paths` validation loop shared verbatim between
`Archive.upload` (resources.py lines 368-376) and `Archive.replace_zip`
(lines 408-415): the first path that is not an existing regular file, or
whose basename was already seen, raises `PathError`; `fs` is the set of
paths that are existing regular files (`os.path.isfile`). In `upload` the
duplicate-name message is accidentally passed to `PathError` as two
arguments; both variants raise `PathError`, which is all the model keeps
of the message. -/
def checkPathsLoop (fs : List String) :
    List String → List String → Option String
  | [], _ => none
  | p :: rest, filenames =>
    if p ∉ fs then some (p ++ " is not a file")
    else if basename p ∈ filenames then
      some ("Cannot upload 2 files with the same name: " ++ basename p)
    else checkPathsLoop fs rest (filenames ++ [basename p])

/-- The full file-path validation prefix of `Archive.upload` and
`Archive.replace_zip` (resources.py lines 362-376 and 402-415): empty list,
more than `MAX_FILE_NUMBER` entries, a non-file path, or a duplicate
basename each raise `PathError`; `none` means validation passed. -/
def checkFilePaths (fs : List String) (file_paths : List String) :
    Option String :=
  if file_paths.length = 0 then some "Empty list of paths."
  else if file_paths.length > MAX_FILE_NUMBER then
    some "Too many files to upload. The limit is 50."
  else checkPathsLoop fs file_paths []

/-- The response of the POST to "archives/add": either the status field
`res["name"]` equals "Failed", or the response carries the new archive id
`res["archive"]["_id"]`. -/
inductive AddResponse where
  | failed
  | created (id : String)
  deriving DecidableEq, Repr

/-- The remote behaviour `Archive.upload`/`Archive.replace_zip` interact
with: the username returned by `get_username`, the response to the
"archives/add" POST, and whether the binary file transfer
(`AstrClient.upload`) succeeds or raises. -/
structure Dispatcher where
  username : String
  addResponse : AddResponse
  uploadOk : Bool
  deriving DecidableEq, Repr

/-- Outcome of `Archive.upload` / `Archive.replace_zip`: the result, the
final local state of the archive, and the trace of dispatcher calls in
order of invocation. -/
structure ArchiveUploadOutcome where
  result : Except PyError Unit
  archive : ArchiveState
  trace : List NetOp
  deriving DecidableEq, Repr

/-- Embedding of `Archive.upload` (resources.py lines 348-388): validates
`file_paths`; then `data = self._object_to_dict()` (which aliases and
mutates `self._astr_items`), `data["author"] = get_username()` (a GET
through the dispatcher, and a second in-place mutation of the snapshot
through the alias), posts the data to "archives/add"; raises `ArchiveError`
when the response name is "Failed"; otherwise reads the new id, performs
the binary transfer keyed by it, and only after the transfer returns
assigns `self.id_ = archive_id`. A failing transfer therefore propagates
before `id_` is assigned, but every exit past validation leaves the
snapshot mutated. -/
def Archive.upload (fs : List String) (d : Dispatcher) (a : ArchiveState)
    (file_paths : List String) : ArchiveUploadOutcome :=
  match checkFilePaths fs file_paths with
  | some msg => { result := .error (.pathError msg), archive := a, trace := [] }
  | none =>
    let getUserOp := NetOp.get ("user/email/")
    let data := Archive.object_to_dict a
    let a := Archive.object_to_dict_mutation a
    -- data["author"] = username writes into _astr_items through the alias
    let a := { a with astr_items := { a.astr_items with author := some d.username } }
    let body : List (String × BodyVal) :=
      [("id_", BodyVal.str (data.id_.getD "")),
       ("date", BodyVal.str data.date),
       ("category", BodyVal.str data.category),
       ("author", BodyVal.str d.username),
       ("comments", BodyVal.str (data.comments.getD "")),
       ("descriptors", BodyVal.descriptorList data.descriptors)]
    let addOp := NetOp.post "archives/add" body
    match d.addResponse with
    | .failed =>
      { result := .error .archiveError, archive := a, trace := [getUserOp, addOp] }
    | .created archive_id =>
      let transferOp := NetOp.fileUpload "upload" file_paths archive_id
      if d.uploadOk then
        { result := .ok (), archive := { a with id_ := some archive_id },
          trace := [getUserOp, addOp, transferOp] }
      else
        { result := .error (.httpError 0 ""), archive := a,
          trace := [getUserOp, addOp, transferOp] }

/-- Embedding of `Archive.replace_zip` (resources.py lines 390-422):
validates `file_paths` identically, then posts the modification-date touch
to "archives/id/<id>" and uploads the new files keyed by the existing id
(the model assumes a persisted archive, as the method requires). -/
def Archive.replace_zip (fs : List String) (d : Dispatcher) (a : ArchiveState)
    (file_paths : List String) : ArchiveUploadOutcome :=
  match checkFilePaths fs file_paths with
  | some msg => { result := .error (.pathError msg), archive := a, trace := [] }
  | none =>
    let touchOp := NetOp.post ("archives/id/" ++ a.id_.getD "")
      [("newArchive", BodyVal.str "true")]
    let transferOp := NetOp.fileUpload "upload/replace-zip" file_paths (a.id_.getD "")
    if d.uploadOk then
      { result := .ok (), archive := a, trace := [touchOp, transferOp] }
    else
      { result := .error (.httpError 0 ""), archive := a,
        trace := [touchOp, transferOp] }

/-- C1: the claim says a GET returning HTTP 401 raises AuthenticationFailure
and a download returning HTTP 404 raises ResourceNotFound. The code compares
the integer `status_code` with the STRING literals "401"/"404", which is
always false in Python, so both branches are dead and the generic HTTPError
from `raise_for_status` is raised instead. This theorem evaluates the
embedded `_request` and `download` at the failing inputs. -/
theorem request_401_and_download_404_raise_generic_http_error :
    AstrClient.request "GET" { status_code := 401, content := "unauthorized", jsonBody := "" } =
      Except.error (PyError.httpError 401 "unauthorized") ∧
    AstrClient.download { status_code := 404, content := "not found", jsonBody := "" } =
      DownloadResult.exn (PyError.httpError 404 "not found") := by
  exact ⟨rfl, rfl⟩

/-- C9: `AstrClient.download` never raises `DownloadError`: the `not
response.ok` check runs only after `raise_for_status` has passed, and a
response that passes `raise_for_status` is always marked ok. -/
theorem download_never_raises_download_error (resp : HttpResponse) :
    AstrClient.download resp ≠ DownloadResult.exn PyError.downloadError := by
  unfold AstrClient.download responseOk intEqStr
  by_cases h : raiseForStatusRaises resp.status_code = true <;>
    simp [h]

/-- C8: every file handle opened during `AstrClient.upload` is closed by the
`finally` block on every exit path: open failure partway through the list,
transport exception, HTTP error response, or success. -/
theorem client_upload_closes_all_opened_handles (canOpen : String → Bool)
    (postRaises : Bool) (resp : HttpResponse) (paths : List String) :
    (AstrClient.uploadExec canOpen postRaises resp paths).closed =
      (AstrClient.uploadExec canOpen postRaises resp paths).opened := by
  unfold AstrClient.uploadExec
  rcases hop : openFiles canOpen paths [] with ⟨o, opened⟩
  cases o with
  | none =>
    by_cases hp : postRaises <;>
      by_cases hr : raiseForStatusRaises resp.status_code = true <;>
        simp [hp, hr, intEqStr]
  | some p => simp

/-- C7: `Archive.update` leaves every local field of the archive unchanged;
a call with no arguments sends an empty change set; in general the request
body contains exactly the explicitly provided fields. -/
theorem archive_update_frame_and_partial_body (a : ArchiveState)
    (date comments : Option String)
    (descriptors : Option (List (String × String))) :
    (Archive.update a date comments descriptors).1 = a ∧
    (Archive.update a none none none).2 =
      NetOp.post ("archives/id/" ++ a.id_.getD "") [] ∧
    ∃ body, (Archive.update a date comments descriptors).2 =
      NetOp.post ("archives/id/" ++ a.id_.getD "") body ∧
      body.map Prod.fst =
        (if date.isSome then ["date"] else []) ++
        (if comments.isSome then ["comments"] else []) ++
        (if descriptors.isSome then ["descriptors"] else []) := by
  refine ⟨?_, rfl, ?_⟩
  · cases date <;> cases comments <;> cases descriptors <;> rfl
  · cases date <;> cases comments <;> cases descriptors <;>
      exact ⟨_, rfl, rfl⟩

/-- C6: the query built by `Browser.get_archives_by_args` contains exactly
the provided top-level fields (absent arguments are omitted), each provided
descriptor key/value pair becomes exactly one element-match entry in the
"$and" list, and in particular a single descriptor robot_type = NAO yields a
query consisting of one "$and" clause with exactly that entry. -/
theorem browser_get_archives_by_args_query_exact_fields
    (author date category : Option String)
    (descriptors : Option (List (String × String))) :
    (Browser.get_archives_by_args_query author date category descriptors).map Prod.fst =
      (if author.isSome then ["author"] else []) ++
      (if date.isSome then ["date"] else []) ++
      (if category.isSome then ["category"] else []) ++
      (if descriptors.isSome then ["$and"] else []) ∧
    (Browser.get_archives_by_args_query author date category descriptors).lookup "author" =
      author.map QueryVal.str ∧
    (Browser.get_archives_by_args_query author date category descriptors).lookup "date" =
      date.map QueryVal.str ∧
    (Browser.get_archives_by_args_query author date category descriptors).lookup "category" =
      category.map QueryVal.str ∧
    (Browser.get_archives_by_args_query author date category descriptors).lookup "$and" =
      descriptors.map (fun ds => QueryVal.elemMatches ds) ∧
    Browser.get_archives_by_args_query none none none (some [("robot_type", "NAO")]) =
      [("$and", QueryVal.elemMatches [("robot_type", "NAO")])] := by
  cases author <;> cases date <;> cases category <;> cases descriptors <;>
    simp [Browser.get_archives_by_args_query, List.lookup]

/-- Folding `dictInsert` over pairs whose keys are pairwise distinct and
disjoint from the accumulated dict just appends the pairs in order. -/
lemma foldl_dictInsert_of_nodup :
    ∀ (l acc : List (String × String)),
      (l.map Prod.fst).Nodup →
      (∀ kv ∈ l, ∀ kv2 ∈ acc, kv.1 ≠ kv2.1) →
      l.foldl (fun d nv => dictInsert d nv.1 nv.2) acc = acc ++ l
  | [], acc, _, _ => by simp
  | (k, v) :: rest, acc, hnd, hdisj => by
    have hk : acc.any (fun kv => kv.1 = k) = false := by
      simp only [List.any_eq_false, decide_eq_true_eq]
      intro kv2 hkv2
      exact fun h => hdisj (k, v) (by simp) kv2 hkv2 h.symm
    have hstep : dictInsert acc k v = acc ++ [(k, v)] := by
      simp [dictInsert, hk]
    have hnd' : (rest.map Prod.fst).Nodup := (List.nodup_cons.mp hnd).2
    have hknotin : k ∉ rest.map Prod.fst := (List.nodup_cons.mp hnd).1
    have hdisj' : ∀ kv ∈ rest, ∀ kv2 ∈ acc ++ [(k, v)], kv.1 ≠ kv2.1 := by
      intro kv hkv kv2 hkv2
      rcases List.mem_append.mp hkv2 with h2 | h2
      · exact hdisj kv (by simp [hkv]) kv2 h2
      · have : kv2 = (k, v) := by simpa using h2
        subst this
        intro heq
        have hm : kv.1 ∈ rest.map Prod.fst := List.mem_map_of_mem Prod.fst hkv
        rw [heq] at hm
        exact hknotin hm
    calc ((k, v) :: rest).foldl (fun d nv => dictInsert d nv.1 nv.2) acc
        = rest.foldl (fun d nv => dictInsert d nv.1 nv.2) (acc ++ [(k, v)]) := by
          simp [List.foldl_cons, hstep]
      _ = (acc ++ [(k, v)]) ++ rest := foldl_dictInsert_of_nodup rest _ hnd' hdisj'
      _ = acc ++ ((k, v) :: rest) := by simp

/-- C5: constructing an Archive from a JSON archive object with distinct
descriptor names via `Browser._json_to_archive`, then reserializing it via
`Archive._object_to_dict`, preserves the id, date, category, author,
comments, and every descriptor name/value pair. -/
theorem browser_json_to_archive_roundtrip (j : JsonArchive)
    (h : (j.descriptors.map Prod.fst).Nodup) :
    Archive.object_to_dict (Browser.json_to_archive j) =
      { id_ := some j._id, date := j.date, category := j.category,
        author := some j.author, comments := j.comments,
        descriptors := j.descriptors } := by
  have hfold : j.descriptors.foldl (fun d nv => dictInsert d nv.1 nv.2) [] =
      j.descriptors := by
    have := foldl_dictInsert_of_nodup j.descriptors [] h (by simp)
    simpa using this
  simp [Browser.json_to_archive, Archive.make, Archive.object_to_dict, hfold]

/-- C5 witness: the round-trip theorem applied to a concrete JSON archive
with two distinct descriptor names. -/
theorem browser_json_to_archive_roundtrip_witness :
    Archive.object_to_dict (Browser.json_to_archive
      { _id := "5b29162874f5a43fc26f1f34", author := "John DOE",
        date := "2018-05-30", category := "MY_CAT", comments := some "hi",
        descriptors := [("robot_type", "NAO"), ("color", "blue")] }) =
      { id_ := some "5b29162874f5a43fc26f1f34", date := "2018-05-30",
        category := "MY_CAT", author := some "John DOE",
        comments := some "hi",
        descriptors := [("robot_type", "NAO"), ("color", "blue")] } :=
  browser_json_to_archive_roundtrip
    { _id := "5b29162874f5a43fc26f1f34", author := "John DOE",
      date := "2018-05-30", category := "MY_CAT", comments := some "hi",
      descriptors := [("robot_type", "NAO"), ("color", "blue")] }
    (by decide)

/-- A `file_paths` list is valid for upload/replace_zip when it is
non-empty, within the file-number limit, references only existing regular
files, and has pairwise distinct basenames. -/
def validPaths (fs : List String) (ps : List String) : Prop :=
  ps ≠ [] ∧ ps.length ≤ MAX_FILE_NUMBER ∧ (∀ p ∈ ps, p ∈ fs) ∧
    (ps.map basename).Nodup

instance (fs ps : List String) : Decidable (validPaths fs ps) := by
  unfold validPaths
  infer_instance

/-- If the validation loop passes, every path is an existing file, the
basenames are pairwise distinct, and none of them was already seen. -/
lemma checkPathsLoop_none_sound (fs : List String) :
    ∀ (ps seen : List String), checkPathsLoop fs ps seen = none →
      (∀ p ∈ ps, p ∈ fs) ∧ (ps.map basename).Nodup ∧
        ∀ b ∈ ps.map basename, b ∉ seen
  | [], _, _ => ⟨by simp, by simp, by simp⟩
  | p :: rest, seen, h => by
    unfold checkPathsLoop at h
    by_cases hf : p ∈ fs
    · by_cases hb : basename p ∈ seen
      · simp [hf, hb] at h
      · simp only [hf, hb, not_true_eq_false, if_false, if_true,
          not_false_eq_true, ite_false, ite_true] at h
        obtain ⟨h1, h2, h3⟩ :=
          checkPathsLoop_none_sound fs rest (seen ++ [basename p]) h
        refine ⟨?_, ?_, ?_⟩
        · intro q hq
          rcases List.mem_cons.mp hq with hq | hq
          · exact hq ▸ hf
          · exact h1 q hq
        · simp only [List.map_cons, List.nodup_cons]
          refine ⟨?_, h2⟩
          intro hmem
          exact (h3 (basename p) hmem) (by simp)
        · intro b hb2 hbseen
          simp only [List.map_cons] at hb2
          rcases List.mem_cons.mp hb2 with hb2 | hb2
          · exact hb (hb2 ▸ hbseen)
          · exact (h3 b hb2) (List.mem_append_left _ hbseen)
    · simp [hf] at h

/-- If the full validation prefix passes, the path list is valid. -/
lemma checkFilePaths_none_sound (fs ps : List String)
    (h : checkFilePaths fs ps = none) : validPaths fs ps := by
  unfold checkFilePaths at h
  by_cases h0 : ps.length = 0
  · simp [h0] at h
  · by_cases h50 : ps.length > MAX_FILE_NUMBER
    · simp [h0, h50] at h
    · simp only [h0, h50, if_false, ite_false] at h
      obtain ⟨h1, h2, _⟩ := checkPathsLoop_none_sound fs ps [] h
      exact ⟨fun he => h0 (by simp [he]), by omega, h1, h2⟩

/-- C3: for every invalid `file_paths` list (empty, longer than 50, with a
path that is not an existing regular file, or with two equal basenames),
`Archive.upload` and `Archive.replace_zip` raise `PathError` and issue zero
dispatcher invocations. -/
theorem archive_upload_invalid_paths_no_network (fs : List String)
    (d : Dispatcher) (a : ArchiveState) (ps : List String)
    (h : ¬ validPaths fs ps) :
    (∃ m, (Archive.upload fs d a ps).result = .error (.pathError m)) ∧
    (Archive.upload fs d a ps).trace = [] ∧
    (∃ m, (Archive.replace_zip fs d a ps).result = .error (.pathError m)) ∧
    (Archive.replace_zip fs d a ps).trace = [] := by
  have hc : ∃ m, checkFilePaths fs ps = some m := by
    cases hcc : checkFilePaths fs ps with
    | none => exact absurd (checkFilePaths_none_sound fs ps hcc) h
    | some m => exact ⟨m, rfl⟩
  obtain ⟨m, hm⟩ := hc
  refine ⟨⟨m, ?_⟩, ?_, ⟨m, ?_⟩, ?_⟩ <;>
    simp [Archive.upload, Archive.replace_zip, hm]

/-- C3 witness: two paths sharing the basename "a" are rejected with no
network call, for both upload and replace_zip. -/
theorem archive_upload_invalid_paths_no_network_witness :
    (∃ m, (Archive.upload ["a", "b/a"]
        { username := "u", addResponse := .created "ID1", uploadOk := true }
        (Archive.make "2018-05-30" "CAT" [] none none none)
        ["a", "b/a"]).result = .error (.pathError m)) ∧
    (Archive.upload ["a", "b/a"]
        { username := "u", addResponse := .created "ID1", uploadOk := true }
        (Archive.make "2018-05-30" "CAT" [] none none none)
        ["a", "b/a"]).trace = [] ∧
    (∃ m, (Archive.replace_zip ["a", "b/a"]
        { username := "u", addResponse := .created "ID1", uploadOk := true }
        (Archive.make "2018-05-30" "CAT" [] none none none)
        ["a", "b/a"]).result = .error (.pathError m)) ∧
    (Archive.replace_zip ["a", "b/a"]
        { username := "u", addResponse := .created "ID1", uploadOk := true }
        (Archive.make "2018-05-30" "CAT" [] none none none)
        ["a", "b/a"]).trace = [] :=
  archive_upload_invalid_paths_no_network ["a", "b/a"]
    { username := "u", addResponse := .created "ID1", uploadOk := true }
    (Archive.make "2018-05-30" "CAT" [] none none none)
    ["a", "b/a"] (by decide)

/-- C4 counterexample: with a valid path list, a creation response carrying
the new id "ID1", and a failing binary file transfer, `Archive.upload`
attempts the transfer (it appears in the trace), the transfer error
propagates, and the archive is left with `id_ = none` — NOT in the
Persisted state the claim asserts, because `self.id_ = archive_id` is
executed only after the transfer call returns. -/
theorem archive_upload_transfer_failure_not_persisted_cex :
    (Archive.upload ["f"]
        { username := "u", addResponse := .created "ID1", uploadOk := false }
        (Archive.make "2018-05-30" "CAT" [] none none none)
        ["f"]).result = .error (.httpError 0 "") ∧
    (Archive.upload ["f"]
        { username := "u", addResponse := .created "ID1", uploadOk := false }
        (Archive.make "2018-05-30" "CAT" [] none none none)
        ["f"]).trace.getLast? = some (NetOp.fileUpload "upload" ["f"] "ID1") ∧
    (Archive.upload ["f"]
        { username := "u", addResponse := .created "ID1", uploadOk := false }
        (Archive.make "2018-05-30" "CAT" [] none none none)
        ["f"]).archive.id_ = none := by
  refine ⟨rfl, rfl, rfl⟩

/-- C4 amended: when the creation response does not indicate failure,
`Archive.upload` extracts the new id and performs the binary file transfer
keyed by it, and assigns `id_` only AFTER the transfer returns: on a
successful transfer the archive transitions to Persisted with the new id,
while on a failing transfer the error propagates and the archive keeps its
previous `id_` (it stays Unpersisted when created from scratch), even
though the metadata record was already created server-side; in both cases
the `_astr_items` snapshot has been mutated in place through the alias
returned by `_object_to_dict` (author overwritten with the fetched
username, descriptors replaced by their name/value list form). -/
theorem archive_upload_persists_only_after_transfer (fs : List String)
    (d : Dispatcher) (a : ArchiveState) (ps : List String) (i : String)
    (hok : checkFilePaths fs ps = none) (hadd : d.addResponse = .created i) :
    (Archive.upload fs d a ps).trace.getLast? =
        some (NetOp.fileUpload "upload" ps i) ∧
    (d.uploadOk = true →
      (Archive.upload fs d a ps).result = .ok () ∧
      (Archive.upload fs d a ps).archive =
        { a with id_ := some i,
                 astr_items := { a.astr_items with
                   author := some d.username,
                   descriptors := a.descriptors.map (fun kv => (kv.1, kv.2)) } }) ∧
    (d.uploadOk = false →
      (Archive.upload fs d a ps).result = .error (.httpError 0 "") ∧
      (Archive.upload fs d a ps).archive.id_ = a.id_ ∧
      (Archive.upload fs d a ps).archive =
        { a with astr_items := { a.astr_items with
                   author := some d.username,
                   descriptors := a.descriptors.map (fun kv => (kv.1, kv.2)) } }) := by
  by_cases hup : d.uploadOk = true <;>
    refine ⟨?_, ?_, ?_⟩ <;>
      simp [Archive.upload, Archive.object_to_dict_mutation, hok, hadd, hup,
        List.getLast?]

/-- C4 amended witness: the amended theorem applied to a concrete upload
with a failing transfer over one existing file. -/
theorem archive_upload_persists_only_after_transfer_witness :
    (Archive.upload ["f"]
        { username := "u", addResponse := .created "ID1", uploadOk := false }
        (Archive.make "2018-05-30" "CAT" [] none none none)
        ["f"]).trace.getLast? = some (NetOp.fileUpload "upload" ["f"] "ID1") ∧
    (false = true →
      (Archive.upload ["f"]
        { username := "u", addResponse := .created "ID1", uploadOk := false }
        (Archive.make "2018-05-30" "CAT" [] none none none)
        ["f"]).result = .ok () ∧
      (Archive.upload ["f"]
        { username := "u", addResponse := .created "ID1", uploadOk := false }
        (Archive.make "2018-05-30" "CAT" [] none none none)
        ["f"]).archive =
        { Archive.make "2018-05-30" "CAT" [] none none none with
            id_ := some "ID1",
            astr_items := { (Archive.make "2018-05-30" "CAT" [] none none none).astr_items with
              author := some "u",
              descriptors := ([] : List (String × String)).map (fun kv => (kv.1, kv.2)) } }) ∧
    (false = false →
      (Archive.upload ["f"]
        { username := "u", addResponse := .created "ID1", uploadOk := false }
        (Archive.make "2018-05-30" "CAT" [] none none none)
        ["f"]).result = .error (.httpError 0 "") ∧
      (Archive.upload ["f"]
        { username := "u", addResponse := .created "ID1", uploadOk := false }
        (Archive.make "2018-05-30" "CAT" [] none none none)
        ["f"]).archive.id_ = (Archive.make "2018-05-30" "CAT" [] none none none).id_ ∧
      (Archive.upload ["f"]
        { username := "u", addResponse := .created "ID1", uploadOk := false }
        (Archive.make "2018-05-30" "CAT" [] none none none)
        ["f"]).archive =
        { Archive.make "2018-05-30" "CAT" [] none none none with
            astr_items := { (Archive.make "2018-05-30" "CAT" [] none none none).astr_items with
              author := some "u",
              descriptors := ([] : List (String × String)).map (fun kv => (kv.1, kv.2)) } }) :=
  archive_upload_persists_only_after_transfer ["f"]
    { username := "u", addResponse := .created "ID1", uploadOk := false }
    (Archive.make "2018-05-30" "CAT" [] none none none)
    ["f"] "ID1" (by decide) rfl

/-- C2 counterexample: with an explicit email "alice" but no explicit
token, construction refetches the (email, token) pair from the environment,
so the resolved email is the environment value "bob" — the explicit
argument does NOT take precedence for each credential individually. -/
theorem astrclient_init_explicit_email_discarded_cex :
    AstrClient.init (some "http://x") (some "alice") none
        { url := none, email := some "bob", token := some "tok" } =
      Except.ok { email := "bob", token := "tok", url := "http://x/api/" } ∧
    "bob" ≠ "alice" := by
  exact ⟨by decide, by decide⟩

/-- C2 amended: base_url resolves from the explicit argument when given and
from the environment otherwise; email and token are resolved as a PAIR —
the explicit values are used only when both are given, otherwise both are
read from the environment (discarding a lone explicit value); whenever a
needed value is available from neither source, construction raises
ConfigurationError, and when every needed value is available it succeeds. -/
theorem astrclient_init_resolution (b e t : Option String) (env : Env) :
    (∀ e0 t0, e = some e0 → t = some t0 →
      ∀ s, AstrClient.init b e t env = .ok s → s.email = e0 ∧ s.token = t0) ∧
    ((e = none ∨ t = none) →
      ∀ s, AstrClient.init b e t env = .ok s →
        env.email = some s.email ∧ env.token = some s.token) ∧
    (∀ u, b = some u → ∀ s, AstrClient.init b e t env = .ok s →
      s.url = (if endsWithSlash u then u else u ++ "/") ++ "api/") ∧
    (b = none → ∀ s, AstrClient.init b e t env = .ok s →
      ∃ u, env.url = some u ∧
        s.url = (if endsWithSlash u then u else u ++ "/") ++ "api/") ∧
    ((b = none ∧ env.url = none) ∨
        ((e = none ∨ t = none) ∧ (env.email = none ∨ env.token = none)) →
      ∃ m, AstrClient.init b e t env = .error (.configurationError m)) ∧
    ((b ≠ none ∨ env.url ≠ none) →
      ((e ≠ none ∧ t ≠ none) ∨ (env.email ≠ none ∧ env.token ≠ none)) →
      ∃ s, AstrClient.init b e t env = .ok s) := by
  rcases env with ⟨eu, ee, et⟩
  cases b <;> cases e <;> cases t <;> cases eu <;> cases ee <;> cases et <;>
    simp [AstrClient.init, AstrClient.get_base_url_config,
      AstrClient.get_user_config]

/-- C2 amended witness: with no explicit email/token and a populated
environment, the pair is read from the environment. -/
theorem astrclient_init_resolution_witness :
    (Env.mk none (some "bob") (some "tok")).email =
      some (AstrClientState.mk "bob" "tok" "http://x/api/").email ∧
    (Env.mk none (some "bob") (some "tok")).token =
      some (AstrClientState.mk "bob" "tok" "http://x/api/").token :=
  (astrclient_init_resolution (some "http://x") none none
      (Env.mk none (some "bob") (some "tok"))).2.1
    (Or.inl rfl) (AstrClientState.mk "bob" "tok" "http://x/api/") (by decide)

/-- C10 counterexample: the claim says `_object_to_dict` reports the
AUTHOR captured at construction for every Archive, including post-upload
ones. But `Archive.upload` mutates `_astr_items["author"]` to the fetched
username through the alias returned by `_object_to_dict`: a from-scratch
archive constructed with author `None`, after a successful upload under
username "Jane DOE", yields a dict reporting author "Jane DOE". -/
theorem archive_object_to_dict_author_overwritten_cex :
    (Archive.make "2018-05-30" "CAT" [("k", "v")] none none none).astr_items.author = none ∧
    (Archive.object_to_dict
        (Archive.upload ["f"]
          { username := "Jane DOE", addResponse := .created "ID1", uploadOk := true }
          (Archive.make "2018-05-30" "CAT" [("k", "v")] none none none)
          ["f"]).archive).author = some "Jane DOE" ∧
    some "Jane DOE" ≠ (none : Option String) := by
  refine ⟨rfl, by decide, by decide⟩

/-- C10 amended: `Archive._object_to_dict` reports id_, date, category and
comments as captured in `_astr_items` at construction time, while the
descriptors are re-read from the current `descriptors` attribute; the
author field of the snapshot, however, is overwritten in place by
`Archive.upload` (through the alias `_object_to_dict` returns) with the
username fetched from the server, so after an upload the dict reports that
username instead of the construction-time author; after a successful
upload the dict still reports the construction-time id (`none` for an
archive created from scratch). -/
theorem archive_object_to_dict_snapshot_amended
    (date category : String) (ds ds2 : List (String × String))
    (author comments id0 : Option String) (fs : List String) (d : Dispatcher)
    (ps : List String) (i : String)
    (hok : checkFilePaths fs ps = none) (hadd : d.addResponse = .created i)
    (hup : d.uploadOk = true) :
    Archive.object_to_dict (Archive.make date category ds author comments id0) =
      { id_ := id0, date := date, category := category, author := author,
        comments := comments,
        descriptors := ds.map (fun kv => (kv.1, kv.2)) } ∧
    Archive.object_to_dict
        { Archive.make date category ds author comments id0 with
            descriptors := ds2 } =
      { id_ := id0, date := date, category := category, author := author,
        comments := comments,
        descriptors := ds2.map (fun kv => (kv.1, kv.2)) } ∧
    (Archive.upload fs d (Archive.make date category ds author comments id0)
        ps).archive.id_ = some i ∧
    Archive.object_to_dict
        (Archive.upload fs d (Archive.make date category ds author comments id0)
          ps).archive =
      { id_ := id0, date := date, category := category,
        author := some d.username, comments := comments,
        descriptors := ds.map (fun kv => (kv.1, kv.2)) } := by
  refine ⟨rfl, rfl, ?_, ?_⟩ <;>
    simp [Archive.upload, Archive.object_to_dict_mutation, hok, hadd, hup,
      Archive.make, Archive.object_to_dict]

/-- C10 amended witness: a from-scratch archive uploaded successfully under
username "u" gets `id_ = some "ID1"` while its dict still reports
`id_ = none`, now with author "u" and the current descriptors. -/
theorem archive_object_to_dict_snapshot_amended_witness :
    Archive.object_to_dict (Archive.make "2018-05-30" "CAT" [("k", "v")] none none none) =
      { id_ := none, date := "2018-05-30", category := "CAT", author := none,
        comments := none,
        descriptors := [("k", "v")].map (fun kv => (kv.1, kv.2)) } ∧
    Archive.object_to_dict
        { Archive.make "2018-05-30" "CAT" [("k", "v")] none none none with
            descriptors := [("k2", "v2")] } =
      { id_ := none, date := "2018-05-30", category := "CAT", author := none,
        comments := none,
        descriptors := [("k2", "v2")].map (fun kv => (kv.1, kv.2)) } ∧
    (Archive.upload ["f"]
        { username := "u", addResponse := .created "ID1", uploadOk := true }
        (Archive.make "2018-05-30" "CAT" [("k", "v")] none none none)
        ["f"]).archive.id_ = some "ID1" ∧
    Archive.object_to_dict
        (Archive.upload ["f"]
          { username := "u", addResponse := .created "ID1", uploadOk := true }
          (Archive.make "2018-05-30" "CAT" [("k", "v")] none none none)
          ["f"]).archive =
      { id_ := none, date := "2018-05-30", category := "CAT",
        author := some "u", comments := none,
        descriptors := [("k", "v")].map (fun kv => (kv.1, kv.2)) } :=
  archive_object_to_dict_snapshot_amended "2018-05-30" "CAT"
    [("k", "v")] [("k2", "v2")] none none none ["f"]
    { username := "u", addResponse := .created "ID1", uploadOk := true }
    ["f"] "ID1" (by decide) rfl rfl
